import Mathlib

/-!
Shallow embedding of the Recording Session Reconciliation Engine of
`src/TimePortal.py`: the `Project` record with its JSON persistence, the
`OBSController` stop-path cache and final-path resolution, and the
state-machine methods of `MainApp` (`check_record_status`,
`_retrieve_final_path_with_retry`, `_finalize_with_path`,
`global_hotkey_callback` together with `RecordingWindow.add_timestamp`).

Modelling conventions:
* Python floats are modelled as rationals; `round(x, 2)` is modelled as
  exact rounding to hundredths with ties to even (`round2`).
* The project folder (one `<name>.json` file per project) is modelled as a
  keyed record store `Store := String → Option StoredFile`; a stored file
  is either a parsed dictionary (`RawDict`, whose fields are `Option`s:
  `dict.get` may find them missing) or `malformed` (unreadable JSON).
* Fallible Python calls are modelled with `Option`: `none` stands for a
  raised exception that the caller catches, `some v` for a normal result.
* Timer-driven callbacks are modelled as explicit state passing; the
  delayed reschedules of `_retrieve_final_path_with_retry` are collapsed
  into one recursive function whose per-attempt view of the OBS
  controller is supplied by a stream `envs` (between two attempts only
  the OBS-side view can change: push events may update the stop-path
  cache, and hotkey activations are no-ops while `is_recording` is
  false).
-/

namespace TimePortal

/-- One element of `Project.timestamps`: the dict `{"sec": .., "note": ..}`. -/
structure Timestamp where
  sec : ℚ
  note : String
deriving DecidableEq

/-- Embeds `class Project` (src/TimePortal.py lines 115-127): the in-memory
session record.  `Project.__init__` turns a missing or `None` path into
`""` and a missing timestamp list into `[]`. -/
structure Project where
  name : String
  video_file_path : String
  timestamps : List Timestamp
deriving DecidableEq

/-- Embeds `Project.add_timestamp` (lines 121-122): appends `{"sec": sec, "note": ""}`. -/
def Project.add_timestamp (p : Project) (sec : ℚ) : Project :=
  { p with timestamps := p.timestamps ++ [⟨sec, ""⟩] }

/-- The in-place update `self.timestamps[index]["note"] = note` for an
in-range natural index. -/
def setNoteList : List Timestamp → ℕ → String → List Timestamp
  | [], _, _ => []
  | t :: ts, 0, note => ⟨t.sec, note⟩ :: ts
  | t :: ts, n + 1, note => t :: setNoteList ts n note

/-- Embeds `Project.set_note` (lines 124-126): guarded by
`0 <= index < len(self.timestamps)`; the index is a Python int, so it is
taken in `ℤ` here, and out-of-range indices leave the project unchanged. -/
def Project.set_note (p : Project) (index : ℤ) (note : String) : Project :=
  if 0 ≤ index ∧ index < (p.timestamps.length : ℤ) then
    { p with timestamps := setNoteList p.timestamps index.toNat note }
  else p

/-- A parsed JSON dictionary for a project file.  Each field is optional:
`from_dict` reads `dct["name"]` (a `KeyError` when missing) and
`dct.get(...)` with defaults for the other two keys. -/
structure RawDict where
  name : Option String
  video_file_path : Option String
  timestamps : Option (List Timestamp)
deriving DecidableEq

/-- Embeds `Project.to_dict` (lines 128-133). -/
def Project.to_dict (p : Project) : RawDict :=
  { name := some p.name
    video_file_path := some p.video_file_path
    timestamps := some p.timestamps }

/-- Embeds `Project.from_dict` (lines 135-141), as observed through `load_json`:
a missing `"name"` key raises `KeyError`, which `load_json` catches and
turns into `None`, so the composite is modelled with `Option`. -/
def Project.from_dict (dct : RawDict) : Option Project :=
  match dct.name with
  | none => none
  | some n =>
      some { name := n
             video_file_path := dct.video_file_path.getD ""
             timestamps := dct.timestamps.getD [] }

/-- Contents of one `<name>.json` file: parsed JSON, or data that
`json.load` cannot parse. -/
inductive StoredFile where
  | malformed : StoredFile
  | parsed : RawDict → StoredFile
deriving DecidableEq

/-- The project folder as a durable keyed record store
(`<key>.json` ↦ contents). -/
def Store : Type := String → Option StoredFile

/-- Writing a project file (an upsert). -/
def Store.write (s : Store) (key : String) (dct : RawDict) : Store :=
  fun k => if k = key then some (.parsed dct) else s k

/-- Removal (`os.remove`) of a project file. -/
def Store.remove (s : Store) (key : String) : Store :=
  fun k => if k = key then none else s k

/-- Embeds `Project.save_json` (lines 143-151): writes `to_dict` under the
project's current name. -/
def Project.save_json (s : Store) (p : Project) : Store :=
  s.write p.name p.to_dict

/-- Embeds `Project.load_json` (lines 153-164): `None` when the file does not
exist; otherwise parse and `from_dict`, with every exception caught and
turned into `None`. -/
def Project.load_json (s : Store) (name : String) : Option Project :=
  match s name with
  | none => none
  | some .malformed => none
  | some (.parsed dct) => Project.from_dict dct

/-- One persistence-affecting file operation performed during
finalization, in program order. -/
inductive StoreOp where
  | write : String → RawDict → StoreOp
  | remove : String → StoreOp
deriving DecidableEq

def applyOp (s : Store) : StoreOp → Store
  | .write key dct => s.write key dct
  | .remove key => s.remove key

def applyOps (s : Store) : List StoreOp → Store
  | [] => s
  | op :: rest => applyOps (applyOp s op) rest

/-- Python truthiness of an `Optional[str]`: `None` and `""` are falsy. -/
def pyTruthy : Option String → Bool
  | none => false
  | some s => !(s == "")

/-- State of `OBSController` relevant to path resolution:
`is_connected` and the single-slot push-event cache
`last_known_stop_path` (initially `None`). -/
structure OBSState where
  is_connected : Bool
  last_known_stop_path : Option String
deriving DecidableEq

/-- Results of the two status queries tried by `get_final_record_path`:
`none` models a raised exception (or, for 5.x, a response without a
`datain` attribute, which leaves `path` at `""` just like an exception);
`some s` models a successful call whose path field is `s`
(`data.get("outputPath", "")`, resp. `getRecordingFilename()`). -/
structure GatewayStatus where
  status5x : Option String
  status4x : Option String
deriving DecidableEq

/-- Embeds `OBSController.get_final_record_path` (lines 238-260): prefer the
cached push-event path when it is truthy; otherwise, if connected, try
the 5.x status query and fall back to the 4.x one when the path is still
empty. -/
def get_final_record_path (st : OBSState) (gw : GatewayStatus) : String :=
  if pyTruthy st.last_known_stop_path then st.last_known_stop_path.getD ""
  else if !st.is_connected then ""
  else
    let path := gw.status5x.getD ""
    if path = "" then gw.status4x.getD "" else path

/-- The 5.x `RecordStateChanged` event as read by its handler: `hasData`
is the truthiness of `event.datain`; the two strings are
`datain.get("outputState", "")` and `datain.get("outputPath", "")`. -/
structure RecordStateChangedEvent where
  hasData : Bool
  outputState : String
  outputPath : String
deriving DecidableEq

/-- Embeds `OBSController.on_record_state_changed_5x` (lines 211-219). -/
def on_record_state_changed_5x (st : OBSState) (ev : RecordStateChangedEvent) : OBSState :=
  if !ev.hasData then st
  else if ev.outputState = "OBS_WEBSOCKET_OUTPUT_STOPPED" then
    { st with last_known_stop_path := some ev.outputPath }
  else st

/-- Embeds `OBSController.on_recording_stopped_4x` (lines 229-236); `filename`
is `some f` when `event.getRecordingFilename()` returns `f` and `none`
when it raises, in which case the handler's local `filename` keeps its
initial value `""`.  Either way the cache is overwritten. -/
def on_recording_stopped_4x (st : OBSState) (filename : Option String) : OBSState :=
  { st with last_known_stop_path := some (filename.getD "") }

/-- Round to the nearest integer with ties to even, as Python `round`. -/
def roundHalfEven (x : ℚ) : ℤ :=
  if x - ⌊x⌋ < 1 / 2 then ⌊x⌋
  else if 1 / 2 < x - ⌊x⌋ then ⌊x⌋ + 1
  else if ⌊x⌋ % 2 = 0 then ⌊x⌋ else ⌊x⌋ + 1

/-- Python `round(x, 2)`. -/
def round2 (x : ℚ) : ℚ := (roundHalfEven (100 * x) : ℚ) / 100

/-- Embeds `os.path.basename`: the part of the path after the last separator. -/
def basename (path : String) : String :=
  String.mk (path.toList.foldl
    (fun acc c => if c = '/' ∨ c = '\\' then [] else acc ++ [c]) [])

/-- Combined state of `MainApp`, its `OBSController` and the project
store.  `recording_window = some t0` models an open `RecordingWindow`
whose `recording_start_time` is `t0`; the window's `project` field
aliases `current_recording_project` whenever both are set. -/
structure SysState where
  store : Store
  is_connected : Bool
  last_known_stop_path : Option String
  is_recording : Bool
  current_recording_project : Option Project
  recording_window : Option ℚ

/-- Embeds `MainApp.global_hotkey_callback` (lines 786-788) together with
`RecordingWindow.add_timestamp` (lines 486-489); `now` is the
`time.time()` reading at the activation. -/
def global_hotkey_callback (st : SysState) (now : ℚ) : SysState :=
  if st.is_recording then
    match st.current_recording_project, st.recording_window with
    | some p, some start =>
        { st with
            current_recording_project := some (p.add_timestamp (round2 (now - start))) }
    | _, _ => st
  else st

/-- A sequence of hotkey activations at the given clock readings. -/
def runHotkeys (st : SysState) (nows : List ℚ) : SysState :=
  nows.foldl global_hotkey_callback st

/-- The project as mutated by `MainApp._finalize_with_path`
(lines 869-886): a non-empty path with a non-empty base name renames the
project and records the path; a non-empty path whose base name is empty
only records the path; an empty path leaves the project unchanged. -/
def finalizeProject (p : Project) (final_path : String) : Project :=
  if final_path ≠ "" then
    if basename final_path ≠ "" then
      { p with name := basename final_path, video_file_path := final_path }
    else { p with video_file_path := final_path }
  else p

/-- The file operations performed by `MainApp._finalize_with_path`
(lines 866-894), in program order: in the rename branch the old record
is removed first (guarded by `os.path.exists`) and the renamed record is
saved afterwards; in the other branches the project is saved under its
unchanged name.  Closing the `RecordingWindow` (when one is open) fires
its `closeEvent`, which saves the (aliased, already mutated) project
once more. -/
def finalizeStoreOps (s : Store) (p : Project) (final_path : String)
    (window_open : Bool) : List StoreOp :=
  (if final_path ≠ "" then
    if basename final_path ≠ "" then
      (if (s p.name).isSome then [StoreOp.remove p.name] else []) ++
        [StoreOp.write (finalizeProject p final_path).name
          (finalizeProject p final_path).to_dict]
    else
      [StoreOp.write p.name (finalizeProject p final_path).to_dict]
  else [StoreOp.write p.name p.to_dict]) ++
  (if window_open then
    [StoreOp.write (finalizeProject p final_path).name
      (finalizeProject p final_path).to_dict]
  else [])

/-- Embeds `MainApp._finalize_with_path` (lines 866-894): a no-op without an
active project; otherwise applies the file operations, closes the
recording window, clears the OBS stop-path cache (`clear_stop_path`) and
clears the active project reference. -/
def _finalize_with_path (st : SysState) (final_path : String) : SysState :=
  match st.current_recording_project with
  | none => st
  | some p =>
      { st with
        store := applyOps st.store
          (finalizeStoreOps st.store p final_path st.recording_window.isSome)
        current_recording_project := none
        recording_window := none
        last_known_stop_path := none }

/-- Embeds `MainApp._retrieve_final_path_with_retry` (lines 852-864).  `envs j`
is the view of the OBS controller (stop-path cache, connection flag) and
the gateway's query results at the `j`-th call of
`get_final_record_path`; `i` counts the calls already made.  The
1-second `QTimer.singleShot` reschedules are collapsed into recursion
(see the module docstring).  Returns the resulting state and the total
number of path-resolution attempts made. -/
def retrieveLoop (envs : ℕ → OBSState × GatewayStatus) (st : SysState) :
    ℕ → ℕ → SysState × ℕ
  | i, attempts_left =>
    if st.current_recording_project = none then (st, i)
    else
      let final_path := get_final_record_path (envs i).1 (envs i).2
      if final_path ≠ "" then (_finalize_with_path st final_path, i + 1)
      else
        match attempts_left with
        | al + 2 => retrieveLoop envs st (i + 1) (al + 1)
        | _ => (_finalize_with_path st "", i + 1)

/-- Entry point of the retrier, called as
`self._retrieve_final_path_with_retry(5)` by `check_record_status`. -/
def _retrieve_final_path_with_retry (envs : ℕ → OBSState × GatewayStatus)
    (st : SysState) (attempts : ℕ) : SysState × ℕ :=
  retrieveLoop envs st 0 attempts

/-- Embeds `MainApp.check_record_status` (lines 818-850).  `sig = none` models a
tick on which both status queries raised (early return, no new
information); `sig = some (active, path)` models a delivered status.
`now` is `int(time.time())`, used for the fallback name and as the new
window's start time.  On a start edge the new project is saved
immediately, the previously open recording window (if any) is closed —
saving its aliased project — and a new window opens.  On a stop edge the
source sets `is_recording = False` and calls
`_retrieve_final_path_with_retry(5)`, whose delayed reschedules are
collapsed here (see `retrieveLoop`). -/
def check_record_status (st : SysState) (sig : Option (Bool × String)) (now : ℕ)
    (envs : ℕ → OBSState × GatewayStatus) : SysState :=
  if !st.is_connected then st
  else
    match sig with
    | none => st
    | some (currently_recording, _rec_filename) =>
      if currently_recording && !st.is_recording then
        let project : Project :=
          { name := "Recording_" ++ toString now
            video_file_path := ""
            timestamps := [] }
        let store1 := st.store.write project.name project.to_dict
        let store2 :=
          if st.recording_window.isSome then
            match st.current_recording_project with
            | some oldp => store1.write oldp.name oldp.to_dict
            | none => store1
          else store1
        { st with
          store := store2
          is_recording := true
          current_recording_project := some project
          recording_window := some (now : ℚ) }
      else if !currently_recording && st.is_recording then
        (retrieveLoop envs { st with is_recording := false } 0 5).1
      else st

/-- One poller tick with a delivered status signal. -/
structure Tick where
  active : Bool
  path : String
  now : ℕ
  envs : ℕ → OBSState × GatewayStatus

/-- Number of ticks on which `check_record_status` takes its
session-creating branch. -/
def countCreations (st : SysState) : List Tick → ℕ
  | [] => 0
  | t :: rest =>
    (if st.is_connected = true ∧ t.active = true ∧ st.is_recording = false
     then 1 else 0) +
      countCreations (check_record_status st (some (t.active, t.path)) t.now t.envs) rest

/-- Number of maximal runs of consecutive `true`s (rising edges), given
the value preceding the list. -/
def risingEdges : Bool → List Bool → ℕ
  | _, [] => 0
  | prev, b :: rest => (if b = true ∧ prev = false then 1 else 0) + risingEdges b rest

/-- An empty project folder. -/
def emptyStore : Store := fun _ => none

/-- A freshly created placeholder session, as built by the start edge of
`check_record_status` at `int(time.time()) = 100`. -/
def placeholderProject : Project :=
  { name := "Recording_100", video_file_path := "", timestamps := [] }

/-- The store right after the placeholder session was persisted. -/
def storeWithPlaceholder : Store :=
  Project.save_json emptyStore placeholderProject

/-- A state with no recording in progress and no open windows. -/
def idleState : SysState :=
  { store := emptyStore
    is_connected := true
    last_known_stop_path := none
    is_recording := false
    current_recording_project := none
    recording_window := none }

theorem roundHalfEven_le_floor_add_one (x : ℚ) : roundHalfEven x ≤ ⌊x⌋ + 1 := by
  unfold roundHalfEven; split_ifs <;> omega

theorem floor_le_roundHalfEven (x : ℚ) : ⌊x⌋ ≤ roundHalfEven x := by
  unfold roundHalfEven; split_ifs <;> omega

theorem roundHalfEven_mono {x y : ℚ} (h : x ≤ y) : roundHalfEven x ≤ roundHalfEven y := by
  have hf : ⌊x⌋ ≤ ⌊y⌋ := Int.floor_le_floor h
  rcases lt_or_eq_of_le hf with hlt | heq
  · have h1 := roundHalfEven_le_floor_add_one x
    have h2 := floor_le_roundHalfEven y
    omega
  · unfold roundHalfEven
    rw [← heq]
    split_ifs <;> first | omega | linarith

theorem roundHalfEven_nonneg {x : ℚ} (h : 0 ≤ x) : 0 ≤ roundHalfEven x := by
  have hf : (0 : ℤ) ≤ ⌊x⌋ := Int.floor_nonneg.mpr h
  unfold roundHalfEven; split_ifs <;> omega

theorem round2_mono {x y : ℚ} (h : x ≤ y) : round2 x ≤ round2 y := by
  unfold round2
  have h1 : roundHalfEven (100 * x) ≤ roundHalfEven (100 * y) :=
    roundHalfEven_mono (by linarith)
  have h2 : ((roundHalfEven (100 * x) : ℚ)) ≤ ((roundHalfEven (100 * y) : ℚ)) := by
    exact_mod_cast h1
  linarith

theorem round2_nonneg {x : ℚ} (h : 0 ≤ x) : 0 ≤ round2 x := by
  unfold round2
  have h1 : (0 : ℤ) ≤ roundHalfEven (100 * x) := roundHalfEven_nonneg (by linarith)
  have h2 : (0 : ℚ) ≤ ((roundHalfEven (100 * x) : ℚ)) := by exact_mod_cast h1
  linarith

theorem setNoteList_get? (l : List Timestamp) (n j : ℕ) (note : String) :
    (setNoteList l n note).get? j =
      if j = n then (l.get? j).map (fun t => ⟨t.sec, note⟩) else l.get? j := by
  induction l generalizing n j with
  | nil => simp [setNoteList]
  | cons t ts ih =>
      cases n with
      | zero => cases j with
        | zero => simp [setNoteList]
        | succ j2 => simp [setNoteList]
      | succ n2 => cases j with
        | zero => simp [setNoteList]
        | succ j2 => simpa [setNoteList] using ih n2 j2

/-- Claim C1: whenever the push-event cache `last_known_stop_path` holds a
non-empty path, `get_final_record_path` returns exactly that cached path,
and its result does not depend on the gateway status-query answers at
all. -/
theorem pushed_path_wins (st : OBSState) (gw gw2 : GatewayStatus) (p : String)
    (hcache : st.last_known_stop_path = some p) (hp : p ≠ "") :
    get_final_record_path st gw = p ∧
      get_final_record_path st gw = get_final_record_path st gw2 := by
  have ht : pyTruthy (some p) = true := by simp [pyTruthy, hp]
  refine ⟨?_, ?_⟩ <;> simp [get_final_record_path, hcache, ht]

theorem pushed_path_wins_witness :
    get_final_record_path ⟨true, some "/rec/out.mkv"⟩ ⟨some "/poll/other.mkv", none⟩ =
        "/rec/out.mkv" ∧
      get_final_record_path ⟨true, some "/rec/out.mkv"⟩ ⟨some "/poll/other.mkv", none⟩ =
        get_final_record_path ⟨true, some "/rec/out.mkv"⟩ ⟨none, some "/poll/else.mkv"⟩ :=
  pushed_path_wins ⟨true, some "/rec/out.mkv"⟩ ⟨some "/poll/other.mkv", none⟩
    ⟨none, some "/poll/else.mkv"⟩ "/rec/out.mkv" rfl (by decide)

/-- Claim C5 as stated is false at this input: a 5.x stop event whose
path is empty still changes the cache — the handler overwrites the
previously cached non-empty path with the empty one. -/
theorem stop_event_empty_path_cex :
    (on_record_state_changed_5x ⟨true, some "/rec/a.mkv"⟩
        ⟨true, "OBS_WEBSOCKET_OUTPUT_STOPPED", ""⟩).last_known_stop_path ≠
      some "/rec/a.mkv" := by
  decide

/-- Claim C5 amended: only stop-type events touch the cache — a 5.x event
without data or with a non-stopped state leaves it unchanged — but a 5.x
stop event overwrites the cache with the event's path even when that path
is empty, and the 4.x stopped handler always overwrites it with the
retrieved filename (the empty string when retrieval fails). -/
theorem stop_cache_update_policy (st : OBSState) (ev : RecordStateChangedEvent)
    (fn : Option String) :
    ((ev.hasData = false ∨ ev.outputState ≠ "OBS_WEBSOCKET_OUTPUT_STOPPED") →
        on_record_state_changed_5x st ev = st) ∧
    (ev.hasData = true → ev.outputState = "OBS_WEBSOCKET_OUTPUT_STOPPED" →
        (on_record_state_changed_5x st ev).last_known_stop_path = some ev.outputPath) ∧
    (on_recording_stopped_4x st fn).last_known_stop_path = some (fn.getD "") := by
  refine ⟨fun h => ?_, fun h1 h2 => ?_, rfl⟩
  · rcases h with h | h <;> simp [on_record_state_changed_5x, h]
  · simp [on_record_state_changed_5x, h1, h2]

theorem stop_cache_update_policy_witness :
    on_record_state_changed_5x ⟨true, some "/rec/a.mkv"⟩
        ⟨true, "OBS_WEBSOCKET_OUTPUT_STARTED", "/x"⟩ = ⟨true, some "/rec/a.mkv"⟩ ∧
    (on_record_state_changed_5x ⟨true, none⟩
        ⟨true, "OBS_WEBSOCKET_OUTPUT_STOPPED", "/rec/b.mkv"⟩).last_known_stop_path =
      some "/rec/b.mkv" ∧
    (on_recording_stopped_4x ⟨true, some "/rec/a.mkv"⟩ none).last_known_stop_path =
      some "" :=
  ⟨(stop_cache_update_policy ⟨true, some "/rec/a.mkv"⟩
      ⟨true, "OBS_WEBSOCKET_OUTPUT_STARTED", "/x"⟩ none).1 (Or.inr (by decide)),
   (stop_cache_update_policy ⟨true, none⟩
      ⟨true, "OBS_WEBSOCKET_OUTPUT_STOPPED", "/rec/b.mkv"⟩ none).2.1 rfl rfl,
   (stop_cache_update_policy ⟨true, some "/rec/a.mkv"⟩
      ⟨true, "", ""⟩ none).2.2⟩

/-- Claim C6: a hotkey activation issued while not recording, or without
an active project, or without a recording window, leaves the entire state
unchanged — no timestamp list is modified and nothing is queued (and the
handler is a total function, so nothing is raised). -/
theorem hotkey_noop_when_not_recording (st : SysState) (now : ℚ)
    (h : st.is_recording = false ∨ st.current_recording_project = none ∨
        st.recording_window = none) :
    global_hotkey_callback st now = st := by
  cases hr : st.is_recording <;>
    cases hp : st.current_recording_project <;>
      cases hw : st.recording_window <;>
        simp_all [global_hotkey_callback]

theorem hotkey_noop_when_not_recording_witness :
    global_hotkey_callback idleState 5 = idleState :=
  hotkey_noop_when_not_recording idleState 5 (Or.inl rfl)

/-- Claim C7: persistence round-trips losslessly — saving any project
(any name, any output path including the empty one, any timestamp list)
into any store and loading by the project's name reproduces the project
exactly. -/
theorem save_load_roundtrip (s : Store) (p : Project) :
    Project.load_json (Project.save_json s p) p.name = some p := by
  simp [Project.load_json, Project.save_json, Store.write, Project.to_dict,
    Project.from_dict]

/-- Claim C9: `Project.set_note` is total; with an out-of-range index
(negative, or not less than the timestamp-list length) it is a silent
no-op, and with an in-range index it changes exactly that entry's note,
leaving its `sec`, every other entry, and every other field unchanged. -/
theorem set_note_out_of_range_noop (p : Project) (index : ℤ) (note : String) :
    (¬(0 ≤ index ∧ index < (p.timestamps.length : ℤ)) →
        p.set_note index note = p) ∧
    ((0 ≤ index ∧ index < (p.timestamps.length : ℤ)) →
      (p.set_note index note).name = p.name ∧
      (p.set_note index note).video_file_path = p.video_file_path ∧
      ∀ j : ℕ, (p.set_note index note).timestamps.get? j =
        if j = index.toNat then (p.timestamps.get? j).map (fun t => ⟨t.sec, note⟩)
        else p.timestamps.get? j) := by
  constructor
  · intro h
    rw [Project.set_note, if_neg h]
  · intro h
    rw [Project.set_note, if_pos h]
    exact ⟨rfl, rfl, fun j => setNoteList_get? p.timestamps index.toNat j note⟩

/-- A two-entry project used to instantiate the `set_note` claim. -/
def exNoteProject : Project := ⟨"p", "", [⟨1, "a"⟩, ⟨2, "b"⟩]⟩

theorem set_note_out_of_range_noop_witness :
    exNoteProject.set_note 5 "z" = exNoteProject ∧
    exNoteProject.set_note (-1) "z" = exNoteProject ∧
    (exNoteProject.set_note 1 "z").timestamps.get? 1 =
      (if 1 = (1 : ℤ).toNat
       then (exNoteProject.timestamps.get? 1).map (fun t => ⟨t.sec, "z"⟩)
       else exNoteProject.timestamps.get? 1) :=
  ⟨(set_note_out_of_range_noop exNoteProject 5 "z").1 (by decide),
   (set_note_out_of_range_noop exNoteProject (-1) "z").1 (by decide),
   ((set_note_out_of_range_noop exNoteProject 1 "z").2 (by decide)).2.2 1⟩

/-- Claim C10: `Project.load_json` is total and returns the not-found
result `none` both when no record exists for the key and when a record
exists but cannot be parsed or lacks the required `name` field — a
corrupt stored record is indistinguishable from a missing one. -/
theorem load_json_missing_or_corrupt (s : Store) (key : String)
    (h : s key = none ∨ s key = some .malformed ∨
        ∃ d, s key = some (.parsed d) ∧ d.name = none) :
    Project.load_json s key = none := by
  rcases h with h | h | ⟨d, h, hd⟩ <;>
    simp [Project.load_json, h, Project.from_dict, *]

/-- A store holding only a malformed record under `"x"`. -/
def malformedStore : Store := fun k => if k = "x" then some .malformed else none

/-- A store holding only a parsed record without a `name` field under `"x"`. -/
def namelessStore : Store :=
  fun k => if k = "x" then some (.parsed ⟨none, some "v", some []⟩) else none

theorem load_json_missing_or_corrupt_witness :
    Project.load_json emptyStore "x" = none ∧
    Project.load_json malformedStore "x" = none ∧
    Project.load_json namelessStore "x" = none :=
  ⟨load_json_missing_or_corrupt emptyStore "x" (Or.inl rfl),
   load_json_missing_or_corrupt malformedStore "x" (Or.inr (Or.inl rfl)),
   load_json_missing_or_corrupt namelessStore "x"
     (Or.inr (Or.inr ⟨⟨none, some "v", some []⟩, rfl, rfl⟩))⟩

/-- Claim C2 as stated is false at this input: finalizing the placeholder
session with the resolved path `"/rec/out.mkv"` performs the removal of
the old record first and the write of the renamed record second, so after
the first operation neither the old nor the new record is persisted. -/
theorem finalize_write_before_remove_cex :
    finalizeStoreOps storeWithPlaceholder placeholderProject "/rec/out.mkv" false =
      [StoreOp.remove "Recording_100",
       StoreOp.write "out.mkv" ⟨some "out.mkv", some "/rec/out.mkv", some []⟩] ∧
    applyOps storeWithPlaceholder [StoreOp.remove "Recording_100"] "Recording_100" =
      none ∧
    applyOps storeWithPlaceholder [StoreOp.remove "Recording_100"] "out.mkv" = none := by
  refine ⟨by decide, by decide, by decide⟩

/-- Claim C2 amended: in the rename case `_finalize_with_path` removes the
old record first and writes the renamed record afterwards, so an
intermediate state does exist in which neither record is persisted; after
all operations have been applied, the record exists under the new name
and no record remains under the old one. -/
theorem finalize_remove_then_write (s : Store) (p : Project) (final_path : String)
    (w : Bool)
    (hfp : final_path ≠ "") (hb : basename final_path ≠ "")
    (hold : (s p.name).isSome = true) (hnew : s (basename final_path) = none)
    (hne : basename final_path ≠ p.name) :
    finalizeStoreOps s p final_path w =
      [StoreOp.remove p.name,
       StoreOp.write (basename final_path) (finalizeProject p final_path).to_dict] ++
      (if w then
        [StoreOp.write (basename final_path) (finalizeProject p final_path).to_dict]
       else []) ∧
    applyOps s [StoreOp.remove p.name] p.name = none ∧
    applyOps s [StoreOp.remove p.name] (basename final_path) = none ∧
    applyOps s (finalizeStoreOps s p final_path w) (basename final_path) =
      some (.parsed (finalizeProject p final_path).to_dict) ∧
    applyOps s (finalizeStoreOps s p final_path w) p.name = none := by
  have hname : (finalizeProject p final_path).name = basename final_path := by
    simp [finalizeProject, hfp, hb]
  have hops : finalizeStoreOps s p final_path w =
      [StoreOp.remove p.name,
       StoreOp.write (basename final_path) (finalizeProject p final_path).to_dict] ++
      (if w then
        [StoreOp.write (basename final_path) (finalizeProject p final_path).to_dict]
       else []) := by
    simp [finalizeStoreOps, hfp, hb, hold, hname]
  refine ⟨hops, ?_, ?_, ?_, ?_⟩
  · simp [applyOps, applyOp, Store.remove]
  · simp [applyOps, applyOp, Store.remove, hne, hnew]
  · rw [hops]; cases w <;>
      simp [applyOps, applyOp, Store.remove, Store.write]
  · rw [hops]; cases w <;>
      simp [applyOps, applyOp, Store.remove, Store.write, Ne.symm hne]

theorem finalize_remove_then_write_witness :
    finalizeStoreOps storeWithPlaceholder placeholderProject "/rec/out.mkv" false =
      [StoreOp.remove placeholderProject.name,
       StoreOp.write (basename "/rec/out.mkv")
         (finalizeProject placeholderProject "/rec/out.mkv").to_dict] ++
      (if false then
        [StoreOp.write (basename "/rec/out.mkv")
          (finalizeProject placeholderProject "/rec/out.mkv").to_dict]
       else []) ∧
    applyOps storeWithPlaceholder [StoreOp.remove placeholderProject.name]
      placeholderProject.name = none ∧
    applyOps storeWithPlaceholder [StoreOp.remove placeholderProject.name]
      (basename "/rec/out.mkv") = none ∧
    applyOps storeWithPlaceholder
      (finalizeStoreOps storeWithPlaceholder placeholderProject "/rec/out.mkv" false)
      (basename "/rec/out.mkv") =
      some (.parsed (finalizeProject placeholderProject "/rec/out.mkv").to_dict) ∧
    applyOps storeWithPlaceholder
      (finalizeStoreOps storeWithPlaceholder placeholderProject "/rec/out.mkv" false)
      placeholderProject.name = none :=
  finalize_remove_then_write storeWithPlaceholder placeholderProject "/rec/out.mkv"
    false (by decide) (by decide) (by decide) (by decide) (by decide)

theorem retrieveLoop_base (envs : ℕ → OBSState × GatewayStatus) (st : SysState)
    (i al : ℕ) (h : al = 0 ∨ al = 1) :
    retrieveLoop envs st i al =
      if st.current_recording_project = none then (st, i)
      else if get_final_record_path (envs i).1 (envs i).2 ≠ "" then
        (_finalize_with_path st (get_final_record_path (envs i).1 (envs i).2), i + 1)
      else (_finalize_with_path st "", i + 1) := by
  rcases h with h | h <;> subst h
  · rw [retrieveLoop.eq_2 envs st i 0 (by intro a h2; omega)]
  · rw [retrieveLoop.eq_2 envs st i 1 (by intro a h2; omega)]

theorem retrieveLoop_succ_succ (envs : ℕ → OBSState × GatewayStatus) (st : SysState)
    (i al2 : ℕ) :
    retrieveLoop envs st i (al2 + 2) =
      if st.current_recording_project = none then (st, i)
      else if get_final_record_path (envs i).1 (envs i).2 ≠ "" then
        (_finalize_with_path st (get_final_record_path (envs i).1 (envs i).2), i + 1)
      else retrieveLoop envs st (i + 1) (al2 + 1) := by
  rw [retrieveLoop.eq_1]

theorem retrieveLoop_attempts_le (envs : ℕ → OBSState × GatewayStatus) (st : SysState) :
    ∀ al i, (retrieveLoop envs st i al).2 ≤ i + max 1 al := by
  intro al
  induction al using Nat.strong_induction_on with
  | _ al ih =>
    intro i
    match al with
    | 0 =>
        rw [retrieveLoop_base envs st i 0 (Or.inl rfl)]
        split_ifs
        · show i ≤ i + max 1 0; omega
        · show i + 1 ≤ i + max 1 0; omega
        · show i + 1 ≤ i + max 1 0; omega
    | 1 =>
        rw [retrieveLoop_base envs st i 1 (Or.inr rfl)]
        split_ifs
        · show i ≤ i + max 1 1; omega
        · show i + 1 ≤ i + max 1 1; omega
        · show i + 1 ≤ i + max 1 1; omega
    | al2 + 2 =>
        rw [retrieveLoop_succ_succ]
        have h3 := ih (al2 + 1) (by omega) (i + 1)
        split_ifs
        · show i ≤ i + max 1 (al2 + 2); omega
        · show i + 1 ≤ i + max 1 (al2 + 2); omega
        · show (retrieveLoop envs st (i + 1) (al2 + 1)).2 ≤ i + max 1 (al2 + 2)
          omega

theorem finalize_preserves_flags (st : SysState) (fp : String) :
    (_finalize_with_path st fp).is_connected = st.is_connected ∧
    (_finalize_with_path st fp).is_recording = st.is_recording := by
  cases h : st.current_recording_project <;> simp [_finalize_with_path, h]

theorem retrieveLoop_shape (envs : ℕ → OBSState × GatewayStatus) (st : SysState) :
    ∀ al i, (retrieveLoop envs st i al).1 = st ∨
      ∃ fp, (retrieveLoop envs st i al).1 = _finalize_with_path st fp := by
  intro al
  induction al using Nat.strong_induction_on with
  | _ al ih =>
    intro i
    match al with
    | 0 =>
        rw [retrieveLoop_base envs st i 0 (Or.inl rfl)]
        split_ifs
        · left; rfl
        · right; exact ⟨get_final_record_path (envs i).1 (envs i).2, rfl⟩
        · right; exact ⟨"", rfl⟩
    | 1 =>
        rw [retrieveLoop_base envs st i 1 (Or.inr rfl)]
        split_ifs
        · left; rfl
        · right; exact ⟨get_final_record_path (envs i).1 (envs i).2, rfl⟩
        · right; exact ⟨"", rfl⟩
    | al2 + 2 =>
        rw [retrieveLoop_succ_succ]
        split_ifs
        · left; rfl
        · right; exact ⟨get_final_record_path (envs i).1 (envs i).2, rfl⟩
        · exact ih (al2 + 1) (by omega) (i + 1)

theorem retrieveLoop_preserves_flags (envs : ℕ → OBSState × GatewayStatus)
    (st : SysState) (al i : ℕ) :
    (retrieveLoop envs st i al).1.is_connected = st.is_connected ∧
    (retrieveLoop envs st i al).1.is_recording = st.is_recording := by
  rcases retrieveLoop_shape envs st al i with h | ⟨fp, h⟩
  · rw [h]; exact ⟨rfl, rfl⟩
  · rw [h]; exact finalize_preserves_flags st fp

/-- Claim C3: the retrier started with 5 attempts never makes more than 5
path-resolution attempts; and when the active session exists with an
empty recorded path while every attempt resolves to the empty path,
exactly 5 attempts are made and the session is finalized as a defined
outcome: its record is persisted under its unchanged placeholder name
with an empty output path, and the active-session reference is cleared. -/
theorem retry_exhaustion_defined_outcome (envs : ℕ → OBSState × GatewayStatus)
    (st : SysState) (p : Project)
    (hp : st.current_recording_project = some p)
    (hvp : p.video_file_path = "")
    (hempty : ∀ j, get_final_record_path (envs j).1 (envs j).2 = "") :
    (∀ (envs2 : ℕ → OBSState × GatewayStatus) (st2 : SysState),
        (_retrieve_final_path_with_retry envs2 st2 5).2 ≤ 5) ∧
    (_retrieve_final_path_with_retry envs st 5).2 = 5 ∧
    (_retrieve_final_path_with_retry envs st 5).1.store p.name =
      some (.parsed ⟨some p.name, some "", some p.timestamps⟩) ∧
    (_retrieve_final_path_with_retry envs st 5).1.current_recording_project = none := by
  have hbound : ∀ (envs2 : ℕ → OBSState × GatewayStatus) (st2 : SysState),
      (_retrieve_final_path_with_retry envs2 st2 5).2 ≤ 5 := by
    intro envs2 st2
    have h := retrieveLoop_attempts_le envs2 st2 5 0
    simpa [_retrieve_final_path_with_retry] using h
  have hsome : ¬st.current_recording_project = none := by simp [hp]
  have hstep : ∀ i al2, retrieveLoop envs st i (al2 + 2) =
      retrieveLoop envs st (i + 1) (al2 + 1) := by
    intro i al2
    rw [retrieveLoop_succ_succ]
    simp [hsome, hempty i]
  have hlast : ∀ i, retrieveLoop envs st i 1 = (_finalize_with_path st "", i + 1) := by
    intro i
    rw [retrieveLoop_base envs st i 1 (Or.inr rfl)]
    simp [hsome, hempty i]
  have hrun : _retrieve_final_path_with_retry envs st 5 =
      (_finalize_with_path st "", 5) := by
    unfold _retrieve_final_path_with_retry
    simp only [hstep, hlast]
  have hdict : Project.to_dict p = ⟨some p.name, some "", some p.timestamps⟩ := by
    simp [Project.to_dict, hvp]
  have hfpe : finalizeProject p "" = p := by simp [finalizeProject]
  have hstore : (_finalize_with_path st "").store p.name =
      some (.parsed ⟨some p.name, some "", some p.timestamps⟩) := by
    rw [← hdict]
    cases hw : st.recording_window.isSome <;>
      simp [_finalize_with_path, hp, hw, finalizeStoreOps, hfpe, applyOps, applyOp,
        Store.write]
  have hclear : (_finalize_with_path st "").current_recording_project = none := by
    simp [_finalize_with_path, hp]
  exact ⟨hbound, by rw [hrun], by rw [hrun]; exact hstore, by rw [hrun]; exact hclear⟩

/-- The state right after a stop edge was detected for the placeholder
session (`is_recording` already reset by `check_record_status`). -/
def stoppedState : SysState :=
  { store := storeWithPlaceholder
    is_connected := true
    last_known_stop_path := none
    is_recording := false
    current_recording_project := some placeholderProject
    recording_window := some 100 }

/-- An OBS view on which every path-resolution attempt fails: no cached
stop path and both status queries return no path. -/
def emptyEnvs : ℕ → OBSState × GatewayStatus := fun _ => (⟨true, none⟩, ⟨none, none⟩)

theorem retry_exhaustion_defined_outcome_witness :
    (_retrieve_final_path_with_retry emptyEnvs stoppedState 5).2 = 5 ∧
    (_retrieve_final_path_with_retry emptyEnvs stoppedState 5).1.store
        placeholderProject.name =
      some (.parsed ⟨some placeholderProject.name, some "",
        some placeholderProject.timestamps⟩) ∧
    (_retrieve_final_path_with_retry emptyEnvs
        stoppedState 5).1.current_recording_project = none := by
  have h := retry_exhaustion_defined_outcome emptyEnvs stoppedState placeholderProject
    rfl rfl (fun j => rfl)
  exact ⟨h.2.1, h.2.2.1, h.2.2.2⟩

theorem retrieveLoop_fst_is_connected (envs : ℕ → OBSState × GatewayStatus)
    (st : SysState) (i al : ℕ) :
    (retrieveLoop envs st i al).1.is_connected = st.is_connected :=
  (retrieveLoop_preserves_flags envs st al i).1

theorem retrieveLoop_fst_is_recording (envs : ℕ → OBSState × GatewayStatus)
    (st : SysState) (i al : ℕ) :
    (retrieveLoop envs st i al).1.is_recording = st.is_recording :=
  (retrieveLoop_preserves_flags envs st al i).2

theorem check_record_status_is_connected (st : SysState) (sig : Option (Bool × String))
    (now : ℕ) (envs : ℕ → OBSState × GatewayStatus) :
    (check_record_status st sig now envs).is_connected = st.is_connected := by
  cases hc : st.is_connected
  · simp [check_record_status, hc]
  · rcases sig with _ | ⟨a, path⟩
    · simp [check_record_status, hc]
    · cases a <;> cases hr : st.is_recording <;>
        simp [check_record_status, hc, hr, retrieveLoop_fst_is_connected]

theorem check_record_status_is_recording (st : SysState) (a : Bool) (path : String)
    (now : ℕ) (envs : ℕ → OBSState × GatewayStatus) (hc : st.is_connected = true) :
    (check_record_status st (some (a, path)) now envs).is_recording = a := by
  cases a <;> cases hr : st.is_recording <;>
    simp [check_record_status, hc, hr, retrieveLoop_fst_is_recording]

/-- Claim C4: start detection is idempotent — an `active = true` signal
while already recording is a complete no-op (in particular the active
session reference is unchanged); an `active = true` signal while not
recording creates a new placeholder session and persists it immediately;
and over any sequence of delivered poller signals the session-creating
branch runs exactly once per maximal run of consecutive `active = true`
signals. -/
theorem idempotent_start_detection :
    (∀ (st : SysState) (path : String) (now : ℕ)
        (envs : ℕ → OBSState × GatewayStatus),
      st.is_recording = true →
      check_record_status st (some (true, path)) now envs = st) ∧
    (∀ (st : SysState) (path : String) (now : ℕ)
        (envs : ℕ → OBSState × GatewayStatus),
      st.is_connected = true → st.is_recording = false →
      (check_record_status st (some (true, path)) now envs).is_recording = true ∧
      (check_record_status st (some (true, path)) now envs).current_recording_project =
        some ⟨"Recording_" ++ toString now, "", []⟩ ∧
      ((∀ q, st.current_recording_project = some q →
          q.name ≠ "Recording_" ++ toString now) →
        (check_record_status st (some (true, path)) now envs).store
            ("Recording_" ++ toString now) =
          some (.parsed ⟨some ("Recording_" ++ toString now), some "",
            some ([] : List Timestamp)⟩))) ∧
    (∀ (st : SysState) (ticks : List Tick), st.is_connected = true →
      countCreations st ticks = risingEdges st.is_recording (ticks.map Tick.active)) := by
  refine ⟨?_, ?_, ?_⟩
  · intro st path now envs hr
    cases hc : st.is_connected <;> simp [check_record_status, hc, hr]
  · intro st path now envs hc hr
    refine ⟨?_, ?_, ?_⟩
    · simp [check_record_status, hc, hr]
    · simp [check_record_status, hc, hr]
    · intro hname
      rcases hw : st.recording_window with _ | start
      · simp [check_record_status, hc, hr, hw, Store.write, Project.to_dict]
      · rcases ho : st.current_recording_project with _ | q
        · simp [check_record_status, hc, hr, hw, ho, Store.write, Project.to_dict]
        · have hq : q.name ≠ "Recording_" ++ toString now := hname q ho
          simp [check_record_status, hc, hr, hw, ho, Store.write, Project.to_dict,
            Ne.symm hq]
  · intro st ticks hc
    induction ticks generalizing st with
    | nil => simp [countCreations, risingEdges]
    | cons t rest ih =>
        have h1 : (check_record_status st (some (t.active, t.path))
            t.now t.envs).is_connected = true := by
          rw [check_record_status_is_connected]; exact hc
        have h2 : (check_record_status st (some (t.active, t.path))
            t.now t.envs).is_recording = t.active :=
          check_record_status_is_recording st t.active t.path t.now t.envs hc
        have h3 := ih _ h1
        rw [h2] at h3
        simp only [countCreations, risingEdges, List.map_cons, h3, hc]
        simp

/-- A state currently recording the placeholder session. -/
def recordingState : SysState :=
  { store := storeWithPlaceholder
    is_connected := true
    last_known_stop_path := none
    is_recording := true
    current_recording_project := some placeholderProject
    recording_window := some 100 }

/-- One delivered `active = true` poller tick. -/
def oneTick : Tick := { active := true, path := "", now := 100, envs := emptyEnvs }

theorem idempotent_start_detection_witness :
    check_record_status recordingState (some (true, "")) 100 emptyEnvs =
      recordingState ∧
    countCreations idleState [oneTick, oneTick] =
      risingEdges idleState.is_recording ([oneTick, oneTick].map Tick.active) :=
  ⟨idempotent_start_detection.1 recordingState "" 100 emptyEnvs rfl,
   idempotent_start_detection.2.2 idleState [oneTick, oneTick] rfl⟩

theorem runHotkeys_recording (start : ℚ) (nows : List ℚ) :
    ∀ (st : SysState) (p : Project),
      st.is_recording = true → st.current_recording_project = some p →
      st.recording_window = some start →
      (runHotkeys st nows).current_recording_project =
        some { p with timestamps :=
          p.timestamps ++ nows.map (fun n => ⟨round2 (n - start), ""⟩) } := by
  induction nows with
  | nil => intro st p h1 h2 h3; simp [runHotkeys, h2]
  | cons n rest ih =>
      intro st p h1 h2 h3
      have hstep : global_hotkey_callback st n =
          { st with
              current_recording_project := some (p.add_timestamp (round2 (n - start))) } := by
        simp [global_hotkey_callback, h1, h2, h3]
      have hrest := ih
        { st with
            current_recording_project := some (p.add_timestamp (round2 (n - start))) }
        (p.add_timestamp (round2 (n - start))) (by simpa using h1) rfl
        (by simpa using h3)
      show (runHotkeys (global_hotkey_callback st n) rest).current_recording_project = _
      rw [hstep, hrest]
      simp [Project.add_timestamp]

/-- Claim C8: timestamps captured during one session have offsets that are
non-negative and non-decreasing in capture order, given that the wall
clock readings at the capture instants are non-decreasing and not earlier
than the session's start time. -/
theorem timestamps_monotone_nonneg (st : SysState) (p0 : Project) (start : ℚ)
    (nows : List ℚ)
    (hrec : st.is_recording = true)
    (hproj : st.current_recording_project = some p0)
    (hwin : st.recording_window = some start)
    (hts : p0.timestamps = [])
    (hchain : List.Chain' (· ≤ ·) nows)
    (hge : ∀ t ∈ nows, start ≤ t) :
    ∃ q, (runHotkeys st nows).current_recording_project = some q ∧
      List.Chain' (· ≤ ·) (q.timestamps.map Timestamp.sec) ∧
      ∀ ts ∈ q.timestamps, 0 ≤ ts.sec := by
  refine ⟨_, runHotkeys_recording start nows st p0 hrec hproj hwin, ?_, ?_⟩
  · show List.Chain' (· ≤ ·)
      ((p0.timestamps ++
        nows.map (fun n => (⟨round2 (n - start), ""⟩ : Timestamp))).map Timestamp.sec)
    rw [hts]
    simp only [List.nil_append, List.map_map]
    rw [List.chain'_map]
    exact hchain.imp (fun a b hab => round2_mono (by linarith))
  · intro ts hmem
    simp only [hts, List.nil_append, List.mem_map] at hmem
    obtain ⟨n, hn, rfl⟩ := hmem
    exact round2_nonneg (by have := hge n hn; linarith)

theorem timestamps_monotone_nonneg_witness :
    ∃ q, (runHotkeys recordingState [105, 1123 / 10]).current_recording_project =
        some q ∧
      List.Chain' (· ≤ ·) (q.timestamps.map Timestamp.sec) ∧
      ∀ ts ∈ q.timestamps, 0 ≤ ts.sec :=
  timestamps_monotone_nonneg recordingState placeholderProject 100 [105, 1123 / 10]
    rfl rfl rfl rfl (by norm_num) (by intro t ht; fin_cases ht <;> norm_num)

end TimePortal
